import Mathlib

/-!
Shallow embedding of the GALLERY_APP backend ingestion and search pipeline.

The embedded code:

- `src/src/services/embedding.service.js` — the `EmbeddingService` class:
  `processUploadedImage`, `processMultipleImages`, `searchImages`,
  `cleanupTemporaryFile`, `validateUploadedFile`.
- the upload controller (`uploadImages`, `queryImages` clamping).
- `src/frontend/GalleryApp/src/hooks/useGallery.ts` —
  `searchWithSuggestions`, `generateSearchSuggestions`.
- the multer `fileFilter` from the upload middleware.

External collaborators (the OpenAI service and the Qdrant vector store,
whose implementations live behind network calls) are modelled as an
oracle record `Env`: each fallible awaited call is a function returning
`Except String α`, where `Except.error m` models a thrown JS error with
message `m`.  The service instance state (the lazily-set `isInitialized`
flag) plus an observation trace of temporary-file cleanup calls is the
explicit state `SvcState` threaded through every operation, mirroring the
strictly sequential `await` structure of the JS code.
-/

namespace GalleryApp

/-- Result object of `openaiService.processImage`: description, embedding
vector (contents irrelevant to the claims, modelled as `List Int`),
filename and ISO timestamp string. -/
structure ProcessedData where
  description : String
  embedding : List Int
  filename : String
  timestamp : String
  deriving DecidableEq, Repr

/-- One ranked match returned by the vector store
(`qdrantService.searchSimilarImages`); `score` is the similarity. -/
structure SearchHit where
  id : Nat
  filename : String
  description : String
  score : Rat
  deriving DecidableEq, Repr

/-- Oracle for the external collaborators of `EmbeddingService`:
`initOutcome` is the outcome of `initialize()` (OpenAI key validation plus
Qdrant collection setup), `processImage` is `openaiService.processImage`,
`storeImageEmbedding` is `qdrantService.storeImageEmbedding` returning the
assigned point id, `pathExists`/`unlinkOk` model the `fs-extra` calls made
by `cleanupTemporaryFile`, `processSearchQuery` is
`openaiService.processSearchQuery`, and `searchSimilarImages` is
`qdrantService.searchSimilarImages`. -/
structure Env where
  initOutcome : Except String Unit
  processImage : String → Except String ProcessedData
  storeImageEmbedding : ProcessedData → Except String Nat
  pathExists : String → Bool
  unlinkOk : String → Bool
  processSearchQuery : String → Except String (List Int)
  searchSimilarImages : List Int → Int → Rat → Except String (List SearchHit)

/-- Service state: the `isInitialized` flag (named `inited` here), plus an
observation trace — `cleanupCalls` records every invocation of
`cleanupTemporaryFile` in order, `deleted` records the files actually
unlinked. -/
structure SvcState where
  inited : Bool
  cleanupCalls : List String
  deleted : List String
  deriving DecidableEq, Repr

/-- Embeds `cleanupTemporaryFile(filePath)`: checks `fs.pathExists`, then
`fs.unlink`; every error is caught and only logged, so the function is
total (never throws).  The invocation is recorded in `cleanupCalls`. -/
def cleanupTemporaryFile (env : Env) (s : SvcState) (filePath : String) : SvcState :=
  let s1 := { s with cleanupCalls := s.cleanupCalls ++ [filePath] }
  if env.pathExists filePath then
    if env.unlinkOk filePath then
      { s1 with deleted := s1.deleted ++ [filePath] }
    else s1
  else s1

/-- Embeds the lazy-setup guard `if (!this.isInitialized) await this.initialize()`
found at the top of each public method: a no-op when already set up,
otherwise it runs `initialize()`, which sets the flag on success and
rethrows its error on failure. -/
def ensureInited (env : Env) (s : SvcState) : Except String Unit × SvcState :=
  if s.inited then (Except.ok (), s)
  else
    match env.initOutcome with
    | Except.ok _ => (Except.ok (), { s with inited := true })
    | Except.error m => (Except.error m, s)

/-- Success payload returned by `processUploadedImage`. -/
structure SuccessResult where
  success : Bool
  pointId : Nat
  filename : String
  description : String
  timestamp : String
  deriving DecidableEq, Repr

/-- Embeds `processUploadedImage(imagePath, originalFilename)`: lazy init,
then `openaiService.processImage`, overwrite `filename` with the original
name, `qdrantService.storeImageEmbedding`, then cleanup and return the
success payload.  The JS `catch` block runs `cleanupTemporaryFile` and
rethrows, so every error branch also performs exactly one cleanup. -/
def processUploadedImage (env : Env) (s : SvcState) (imagePath originalFilename : String) :
    Except String SuccessResult × SvcState :=
  let r0 := ensureInited env s
  let s1 := r0.2
  match r0.1 with
  | Except.error m => (Except.error m, cleanupTemporaryFile env s1 imagePath)
  | Except.ok _ =>
    match env.processImage imagePath with
    | Except.error m => (Except.error m, cleanupTemporaryFile env s1 imagePath)
    | Except.ok pd0 =>
      let pd := { pd0 with filename := originalFilename }
      match env.storeImageEmbedding pd with
      | Except.error m => (Except.error m, cleanupTemporaryFile env s1 imagePath)
      | Except.ok pid =>
        (Except.ok { success := true, pointId := pid, filename := originalFilename,
                     description := pd.description, timestamp := pd.timestamp },
         cleanupTemporaryFile env s1 imagePath)

/-- One multer file object as consumed by the batch loop: temporary `path`
and `originalname`. -/
structure MFile where
  path : String
  originalname : String
  deriving DecidableEq, Repr

/-- One entry of the batch failure list: `{filename, error: error.message}`. -/
structure BatchFailure where
  filename : String
  error : String
  deriving DecidableEq, Repr

/-- Batch envelope returned by `processMultipleImages`. -/
structure BatchResult where
  successful : List SuccessResult
  failed : List BatchFailure
  totalProcessed : Nat
  totalFailed : Nat
  deriving DecidableEq, Repr

/-- Embeds the `for (const file of imageFiles)` loop of
`processMultipleImages` with its per-item `try`/`catch`: a success is
pushed onto `results`, a caught error is pushed onto `errors` as
`{filename, error}`, and the loop always continues to the next file. -/
def processBatchLoop (env : Env) (s : SvcState) (files : List MFile)
    (results : List SuccessResult) (errors : List BatchFailure) :
    List SuccessResult × List BatchFailure × SvcState :=
  match files with
  | [] => (results, errors, s)
  | f :: rest =>
    let pr := processUploadedImage env s f.path f.originalname
    match pr.1 with
    | Except.ok r => processBatchLoop env pr.2 rest (results ++ [r]) errors
    | Except.error m =>
      processBatchLoop env pr.2 rest results (errors ++ [{ filename := f.originalname, error := m }])

/-- Embeds `processMultipleImages(imageFiles)`.  With a list argument the
loop body can only throw inside the per-item `try`, where the error is
caught and recorded, so the function always returns a `BatchResult`
normally (the outer `try`/`catch` is a bare rethrow and guards only the
loop machinery itself, e.g. a non-array argument). -/
def processMultipleImages (env : Env) (s : SvcState) (imageFiles : List MFile) :
    BatchResult × SvcState :=
  let out := processBatchLoop env s imageFiles [] []
  ({ successful := out.1, failed := out.2.1,
     totalProcessed := out.1.length, totalFailed := out.2.1.length }, out.2.2)

/-- Multer file object as seen by `validateUploadedFile` (only the fields
the validator reads). -/
structure UploadedFile where
  size : Nat
  mimetype : String
  deriving DecidableEq, Repr

/-- Size ceiling of `validateUploadedFile`: `10 * 1024 * 1024`. -/
def maxUploadSize : Nat := 10 * 1024 * 1024

/-- The `allowedTypes` array inside `validateUploadedFile`
(note: `image/bmp` is absent here). -/
def allowedMimeTypes : List String :=
  ["image/jpeg", "image/jpg", "image/png", "image/gif", "image/webp"]

/-- Embeds `validateUploadedFile(file)`: throws when the file is absent,
when `file.size > 10MB`, or when the MIME type is not in `allowedTypes`;
otherwise returns `true`. -/
def validateUploadedFile (file : Option UploadedFile) : Except String Bool :=
  match file with
  | none => Except.error "No file uploaded"
  | some f =>
    if maxUploadSize < f.size then
      Except.error "File size too large. Maximum size is 10MB"
    else if f.mimetype ∉ allowedMimeTypes then
      Except.error "Invalid file type. Only JPEG, PNG, GIF, and WebP images are allowed"
    else
      Except.ok true

/-- The `allowedTypes` array of the multer `fileFilter` in the upload
middleware (this one does include `image/bmp`). -/
def multerAllowedTypes : List String :=
  ["image/jpeg", "image/jpg", "image/png", "image/gif", "image/webp", "image/bmp"]

/-- Embeds the multer `fileFilter` accept/reject decision on a MIME type. -/
def fileFilter (mimetype : String) : Bool :=
  multerAllowedTypes.contains mimetype

/-- Embeds the limit normalization in the `queryImages` controller:
`Math.min(Math.max(parseInt(limit) || 10, 1), 50)`.  `none` stands for an
absent or non-numeric (`NaN`) value; `parseInt(limit) || 10` maps both
`NaN` and `0` to the default `10`. -/
def clampLimit (limit : Option Int) : Int :=
  let parsed : Int :=
    match limit with
    | none => 10
    | some n => if n = 0 then 10 else n
  min (max parsed 1) 50

/-- Embeds the threshold normalization in the `queryImages` controller:
`Math.min(Math.max(parseFloat(scoreThreshold) || 0.7, 0), 1)`; `none`
stands for an absent or `NaN` value, and `0` is falsy so it also falls
back to `0.7`. -/
def clampThreshold (scoreThreshold : Option Rat) : Rat :=
  let parsed : Rat :=
    match scoreThreshold with
    | none => 7/10
    | some x => if x = 0 then 7/10 else x
  min (max parsed 0) 1

/-- Response envelope of `searchImages`. -/
structure SearchResponse where
  query : String
  results : List SearchHit
  totalFound : Nat
  limitParam : Int
  thresholdParam : Rat
  deriving DecidableEq, Repr

/-- Embeds `searchImages(queryText, limit, scoreThreshold)`: lazy init,
embed the query via `openaiService.processSearchQuery`, delegate to
`qdrantService.searchSimilarImages`, and return the store's ranked list
unmodified inside the response envelope. -/
def searchImages (env : Env) (s : SvcState) (queryText : String) (limit : Int)
    (scoreThreshold : Rat) : Except String SearchResponse × SvcState :=
  let r0 := ensureInited env s
  let s1 := r0.2
  match r0.1 with
  | Except.error m => (Except.error m, s1)
  | Except.ok _ =>
    match env.processSearchQuery queryText with
    | Except.error m => (Except.error m, s1)
    | Except.ok emb =>
      match env.searchSimilarImages emb limit scoreThreshold with
      | Except.error m => (Except.error m, s1)
      | Except.ok rs =>
        (Except.ok { query := queryText, results := rs, totalFound := rs.length,
                     limitParam := limit, thresholdParam := scoreThreshold }, s1)

/-- Responses the `uploadImages` controller can produce: the 400 NO_FILES
reply, the single-file envelope `{success, message, data: result}`, the
batch envelope `{success, message, data: batchResult}`, or a forwarded
error (`next(error)`). -/
inductive UploadResponse where
  | noFiles : UploadResponse
  | single : SuccessResult → UploadResponse
  | batch : BatchResult → UploadResponse
  | failed : String → UploadResponse
  deriving DecidableEq, Repr

/-- Embeds the dispatch of the `uploadImages` controller (after upstream
validation): zero files is rejected, exactly one file goes through
`processUploadedImage` directly and is wrapped in the single-file
envelope, two or more files go through `processMultipleImages` and are
wrapped in the batch envelope. -/
def uploadImages (env : Env) (s : SvcState) (files : List MFile) : UploadResponse × SvcState :=
  match files with
  | [] => (UploadResponse.noFiles, s)
  | [f] =>
    let pr := processUploadedImage env s f.path f.originalname
    match pr.1 with
    | Except.ok r => (UploadResponse.single r, pr.2)
    | Except.error m => (UploadResponse.failed m, pr.2)
  | fs =>
    let pb := processMultipleImages env s fs
    (UploadResponse.batch pb.1, pb.2)

/-- First-occurrence deduplication worker: keeps an element exactly when
it has not been seen before, the order-preserving semantics of the JS
`[...new Set(array)]` idiom. -/
def dedupFirstAux (seen : List String) : List String → List String
  | [] => []
  | a :: rest =>
    if a ∈ seen then dedupFirstAux seen rest else a :: dedupFirstAux (a :: seen) rest

/-- Embeds `[...new Set(suggestions)]`: first-occurrence, order-preserving
deduplication. -/
def dedupFirst (l : List String) : List String := dedupFirstAux [] l

/-- The six fixed broad-category terms pushed by
`generateSearchSuggestions`, in push order. -/
def broadTerms : List String :=
  ["landscape", "people", "nature", "city", "sunset", "ocean"]

/-- Embeds `generateSearchSuggestions(originalQuery)` from the frontend
`useGallery` hook: push the six broad terms, then every word of the
lowercased, space-split query whose length exceeds 3, then deduplicate
(`[...new Set(...)]`) and `slice(0, 5)`. -/
def generateSearchSuggestions (originalQuery : String) : List String :=
  let words := originalQuery.toLower.splitOn " "
  let suggestions := broadTerms ++ words.filter (fun w => 3 < w.length)
  (dedupFirst suggestions).take 5

/-- The `data` payload of the backend query response as read by
`searchWithSuggestions` (only `totalFound` is consulted). -/
structure FrontQueryData where
  totalFound : Nat
  deriving DecidableEq, Repr

/-- Backend query response as seen by the frontend: `success` flag and
optional `data` payload. -/
structure FrontQueryResponse where
  success : Bool
  data : Option FrontQueryData
  deriving DecidableEq, Repr

/-- Embeds `searchWithSuggestions(query, options)`: perform the one search
call, and attach `generateSearchSuggestions(query)` exactly when
`result.success && result.data?.totalFound === 0`; the search result
itself is passed through unchanged.  The suggestion generation is a pure
function of the query string and performs no further backend or embedding
call. -/
def searchWithSuggestions (search : String → FrontQueryResponse) (query : String) :
    FrontQueryResponse × Option (List String) :=
  let result := search query
  match result.data with
  | some d =>
    if result.success && d.totalFound == 0 then
      (result, some (generateSearchSuggestions query))
    else (result, none)
  | none => (result, none)

/-- Fold step of the batch loop: feed one file through
`processUploadedImage` and extend either the success or the failure
accumulator, threading the service state. -/
def batchStep (env : Env) (acc : List SuccessResult × List BatchFailure × SvcState)
    (f : MFile) : List SuccessResult × List BatchFailure × SvcState :=
  let pr := processUploadedImage env acc.2.2 f.path f.originalname
  match pr.1 with
  | Except.ok r => (acc.1 ++ [r], acc.2.1, pr.2)
  | Except.error m =>
    (acc.1, acc.2.1 ++ [{ filename := f.originalname, error := m }], pr.2)

/-! Concrete demonstration environments, used to instantiate the theorems
below at explicit inputs. -/

/-- Demonstration environment in which every collaborator call succeeds. -/
def okEnv : Env where
  initOutcome := Except.ok ()
  processImage := fun p =>
    Except.ok { description := "a photo of " ++ p, embedding := [1, 2, 3],
                filename := p, timestamp := "2024-01-01T00:00:00Z" }
  storeImageEmbedding := fun _ => Except.ok 42
  pathExists := fun _ => true
  unlinkOk := fun _ => true
  processSearchQuery := fun _ => Except.ok [1, 2, 3]
  searchSimilarImages := fun _ _ _ => Except.ok []

/-- Demonstration environment whose vector store is unreachable: every
`storeImageEmbedding` call fails. -/
def storeDownEnv : Env :=
  { okEnv with storeImageEmbedding := fun _ => Except.error "Vector store unreachable" }

/-- Demonstration environment in which the temporary-file unlink fails. -/
def cleanupFailEnv : Env :=
  { okEnv with unlinkOk := fun _ => false }

/-- Store-down environment whose temporary-file unlink also fails. -/
def storeDownNoUnlinkEnv : Env :=
  { okEnv with storeImageEmbedding := fun _ => Except.error "Vector store unreachable",
               unlinkOk := fun _ => false }

/-- Frontend search stub reporting a successful query with zero
results. -/
def zeroFoundSearch : String → FrontQueryResponse :=
  fun _ => { success := true, data := some { totalFound := 0 } }

/-- Fresh service state: not yet set up, empty traces. -/
def initialState : SvcState := { inited := false, cleanupCalls := [], deleted := [] }

/-- Service state of an already-set-up service. -/
def readyState : SvcState := { inited := true, cleanupCalls := [], deleted := [] }

/-- Demonstration file as produced by multer. -/
def demoFile : MFile := { path := "uploads/image-1.jpg", originalname := "a.jpg" }

/-- Ranked hits a well-behaved vector store could return. -/
def demoHits : List SearchHit :=
  [{ id := 1, filename := "a.jpg", description := "a sunset", score := 9/10 },
   { id := 2, filename := "b.jpg", description := "dunes", score := 8/10 }]

/-- Demonstration environment whose vector store returns `demoHits`. -/
def searchEnv : Env :=
  { okEnv with searchSimilarImages := fun _ _ _ => Except.ok demoHits }

/-- Success payload `processUploadedImage` produces for `demoFile` in
`okEnv`. -/
def demoSuccess : SuccessResult :=
  { success := true, pointId := 42, filename := "a.jpg",
    description := "a photo of uploads/image-1.jpg",
    timestamp := "2024-01-01T00:00:00Z" }

/-- Search response `searchImages` produces in `searchEnv`. -/
def demoResponse : SearchResponse :=
  { query := "sunset", results := demoHits, totalFound := 2,
    limitParam := 10, thresholdParam := 7/10 }

/-! Helper lemmas. -/

lemma cleanupTemporaryFile_calls (env : Env) (s : SvcState) (p : String) :
    (cleanupTemporaryFile env s p).cleanupCalls = s.cleanupCalls ++ [p] := by
  unfold cleanupTemporaryFile
  by_cases h1 : env.pathExists p <;> by_cases h2 : env.unlinkOk p <;> simp [h1, h2]

lemma ensureInited_calls (env : Env) (s : SvcState) :
    (ensureInited env s).2.cleanupCalls = s.cleanupCalls := by
  unfold ensureInited
  by_cases h : s.inited
  · simp [h]
  · cases env.initOutcome <;> simp [h]

lemma processUploadedImage_calls (env : Env) (s : SvcState) (p n : String) :
    (processUploadedImage env s p n).2.cleanupCalls = s.cleanupCalls ++ [p] := by
  rcases hin : ensureInited env s with ⟨r0, s1⟩
  have hs1 : s1.cleanupCalls = s.cleanupCalls := by
    have h0 := ensureInited_calls env s
    rw [hin] at h0
    exact h0
  simp only [processUploadedImage, hin]
  cases r0 with
  | error m => simp [cleanupTemporaryFile_calls, hs1]
  | ok u =>
    split
    · simp [cleanupTemporaryFile_calls, hs1]
    · split
      · simp [cleanupTemporaryFile_calls, hs1]
      · split <;> simp [cleanupTemporaryFile_calls, hs1]

lemma processUploadedImage_ok_filename (env : Env) (s : SvcState) (p n : String)
    (r : SuccessResult) (h : (processUploadedImage env s p n).1 = Except.ok r) :
    r.filename = n := by
  rcases hin : ensureInited env s with ⟨r0, s1⟩
  simp only [processUploadedImage, hin] at h
  cases r0 with
  | error m => simp at h
  | ok u =>
    split at h
    · simp at h
    · split at h
      · simp at h
      · split at h
        · simp at h
        · simp at h
          subst h
          rfl

lemma processBatchLoop_length (env : Env) :
    ∀ (files : List MFile) (s : SvcState) (results : List SuccessResult)
      (errors : List BatchFailure),
      (processBatchLoop env s files results errors).1.length
        + (processBatchLoop env s files results errors).2.1.length
        = results.length + errors.length + files.length := by
  intro files
  induction files with
  | nil => intro s results errors; simp [processBatchLoop]
  | cons f rest ih =>
    intro s results errors
    rcases hpr : processUploadedImage env s f.path f.originalname with ⟨r1, s1⟩
    cases r1 with
    | ok r =>
      simp only [processBatchLoop, hpr]
      rw [ih]
      simp
      omega
    | error m =>
      simp only [processBatchLoop, hpr]
      rw [ih]
      simp
      omega

lemma processBatchLoop_perm (env : Env) :
    ∀ (files : List MFile) (s : SvcState) (results : List SuccessResult)
      (errors : List BatchFailure),
      ((processBatchLoop env s files results errors).1.map (fun r => r.filename)
        ++ (processBatchLoop env s files results errors).2.1.map (fun e => e.filename)).Perm
        ((results.map fun r => r.filename) ++ (errors.map fun e => e.filename)
          ++ (files.map fun f => f.originalname)) := by
  intro files
  induction files with
  | nil => intro s results errors; simp [processBatchLoop]
  | cons f rest ih =>
    intro s results errors
    rcases hpr : processUploadedImage env s f.path f.originalname with ⟨r1, s1⟩
    cases r1 with
    | ok r =>
      have hfn : r.filename = f.originalname := by
        apply processUploadedImage_ok_filename env s f.path f.originalname r
        rw [hpr]
      simp only [processBatchLoop, hpr]
      refine (ih s1 (results ++ [r]) errors).trans ?_
      simp only [List.map_append, List.map_cons, List.map_nil, List.append_assoc,
        List.singleton_append, hfn]
      exact List.Perm.append_left _ List.perm_middle.symm
    | error m =>
      simp only [processBatchLoop, hpr]
      refine (ih s1 results (errors ++ [{ filename := f.originalname, error := m }])).trans ?_
      simp [List.append_assoc]

lemma processBatchLoop_calls (env : Env) :
    ∀ (files : List MFile) (s : SvcState) (results : List SuccessResult)
      (errors : List BatchFailure),
      (processBatchLoop env s files results errors).2.2.cleanupCalls
        = s.cleanupCalls ++ files.map (fun f => f.path) := by
  intro files
  induction files with
  | nil => intro s results errors; simp [processBatchLoop]
  | cons f rest ih =>
    intro s results errors
    rcases hpr : processUploadedImage env s f.path f.originalname with ⟨r1, s1⟩
    have hs1 : s1.cleanupCalls = s.cleanupCalls ++ [f.path] := by
      have h0 := processUploadedImage_calls env s f.path f.originalname
      rw [hpr] at h0
      exact h0
    cases r1 with
    | ok r =>
      simp only [processBatchLoop, hpr]
      rw [ih, hs1]
      simp
    | error m =>
      simp only [processBatchLoop, hpr]
      rw [ih, hs1]
      simp

lemma processBatchLoop_eq_foldl (env : Env) :
    ∀ (files : List MFile) (s : SvcState) (results : List SuccessResult)
      (errors : List BatchFailure),
      processBatchLoop env s files results errors
        = files.foldl (batchStep env) (results, errors, s) := by
  intro files
  induction files with
  | nil => intro s results errors; simp [processBatchLoop]
  | cons f rest ih =>
    intro s results errors
    rcases hpr : processUploadedImage env s f.path f.originalname with ⟨r1, s1⟩
    cases r1 with
    | ok r => simp [processBatchLoop, batchStep, hpr, List.foldl, ih]
    | error m => simp [processBatchLoop, batchStep, hpr, List.foldl, ih]

lemma processUploadedImage_result_ignores_cleanup (env env2 : Env) (s : SvcState)
    (p n : String)
    (h1 : env2.initOutcome = env.initOutcome)
    (h2 : env2.processImage = env.processImage)
    (h3 : env2.storeImageEmbedding = env.storeImageEmbedding) :
    (processUploadedImage env2 s p n).1 = (processUploadedImage env s p n).1 := by
  rcases hin0 : ensureInited env s with ⟨r0, s1⟩
  have hin2 : ensureInited env2 s = (r0, s1) := by
    unfold ensureInited at hin0 ⊢
    rw [h1]
    exact hin0
  simp only [processUploadedImage, hin0, hin2, h2, h3]
  cases r0 with
  | error m => rfl
  | ok u =>
    cases hpi : env.processImage p with
    | error m => rfl
    | ok pd0 =>
      cases hst : env.storeImageEmbedding { pd0 with filename := n } with
      | error m => simp [hst]
      | ok pid => simp [hst]

lemma processUploadedImage_err_of_storeFail (env : Env) (s : SvcState) (p n : String)
    (hstore : ∀ pd, ∃ m, env.storeImageEmbedding pd = Except.error m) :
    ∃ m, (processUploadedImage env s p n).1 = Except.error m := by
  rcases hin : ensureInited env s with ⟨r0, s1⟩
  simp only [processUploadedImage, hin]
  cases r0 with
  | error m => exact ⟨m, rfl⟩
  | ok u =>
    cases hpi : env.processImage p with
    | error m => exact ⟨m, by simp⟩
    | ok pd0 =>
      obtain ⟨m, hm⟩ := hstore { pd0 with filename := n }
      exact ⟨m, by simp [hm]⟩

lemma processBatchLoop_allFail (env : Env)
    (hstore : ∀ pd, ∃ m, env.storeImageEmbedding pd = Except.error m) :
    ∀ (files : List MFile) (s : SvcState) (results : List SuccessResult)
      (errors : List BatchFailure),
      (processBatchLoop env s files results errors).1 = results
      ∧ (processBatchLoop env s files results errors).2.1.map (fun e => e.filename)
          = errors.map (fun e => e.filename) ++ files.map (fun f => f.originalname) := by
  intro files
  induction files with
  | nil => intro s results errors; simp [processBatchLoop]
  | cons f rest ih =>
    intro s results errors
    obtain ⟨m, hm⟩ := processUploadedImage_err_of_storeFail env s f.path f.originalname hstore
    rcases hpr : processUploadedImage env s f.path f.originalname with ⟨r1, s1⟩
    rw [hpr] at hm
    simp only at hm
    subst hm
    simp only [processBatchLoop, hpr]
    refine ⟨(ih s1 results _).1, (ih s1 results _).2.trans ?_⟩
    simp

lemma dedupFirstAux_nodup :
    ∀ (l seen : List String),
      (dedupFirstAux seen l).Nodup ∧ ∀ a ∈ dedupFirstAux seen l, a ∉ seen := by
  intro l
  induction l with
  | nil => intro seen; simp [dedupFirstAux]
  | cons a rest ih =>
    intro seen
    by_cases h : a ∈ seen
    · simpa [dedupFirstAux, h] using ih seen
    · simp only [dedupFirstAux, h, if_false]
      obtain ⟨hnd, hns⟩ := ih (a :: seen)
      refine ⟨List.nodup_cons.2 ⟨fun hmem => (hns a hmem) (List.mem_cons_self a seen), hnd⟩, ?_⟩
      intro b hb
      rcases List.mem_cons.1 hb with rfl | hb2
      · exact h
      · exact fun hbs => (hns b hb2) (List.mem_cons_of_mem a hbs)

lemma dedupFirst_nodup (l : List String) : (dedupFirst l).Nodup :=
  (dedupFirstAux_nodup l []).1

lemma generateSearchSuggestions_const (q : String) :
    generateSearchSuggestions q = ["landscape", "people", "nature", "city", "sunset"] := by
  simp [generateSearchSuggestions, dedupFirst, broadTerms, dedupFirstAux]

/-! Claim theorems. -/

/-- C1: for every non-empty input list, `processMultipleImages` returns a
batch result with `successful.length + failed.length = inputCount`
(equivalently `totalProcessed + totalFailed = inputCount`), and the
filenames of the success and failure entries together are a permutation
of the input original filenames, so each input file contributes to
exactly one of the two sequences. -/
theorem c1_batch_partition (env : Env) (s : SvcState) (files : List MFile)
    (h : files ≠ []) :
    (processMultipleImages env s files).1.totalProcessed
        + (processMultipleImages env s files).1.totalFailed = files.length
    ∧ (processMultipleImages env s files).1.successful.length
        + (processMultipleImages env s files).1.failed.length = files.length
    ∧ ((processMultipleImages env s files).1.successful.map (fun r => r.filename)
        ++ (processMultipleImages env s files).1.failed.map (fun e => e.filename)).Perm
        (files.map fun f => f.originalname) := by
  have hlen := processBatchLoop_length env files s [] []
  have hperm := processBatchLoop_perm env files s [] []
  simp only [List.length_nil, List.map_nil, List.nil_append, Nat.zero_add] at hlen hperm
  exact ⟨by simpa [processMultipleImages] using hlen,
         by simpa [processMultipleImages] using hlen,
         by simpa [processMultipleImages] using hperm⟩

/-- C1 witness: the partition invariant instantiated on a concrete
two-file batch in the environment where the store is unreachable. -/
theorem c1_batch_partition_witness :
    ([demoFile, { path := "uploads/image-2.jpg", originalname := "b.jpg" }] ≠ ([] : List MFile))
    ∧ ((processMultipleImages storeDownEnv initialState
          [demoFile, { path := "uploads/image-2.jpg", originalname := "b.jpg" }]).1.totalProcessed
        + (processMultipleImages storeDownEnv initialState
          [demoFile, { path := "uploads/image-2.jpg", originalname := "b.jpg" }]).1.totalFailed
        = 2) :=
  ⟨by simp, by
    have h := (c1_batch_partition storeDownEnv initialState
      [demoFile, { path := "uploads/image-2.jpg", originalname := "b.jpg" }] (by simp)).1
    simpa using h⟩

/-- C2 counterexample: with the vector store unreachable (the
prototypical pipeline-level fault), `processMultipleImages` does not
propagate the error to its caller; it completes normally and records the
store fault as a per-item entry of the batch failure list, contradicting
the claim that such errors propagate as a single structured failure
rather than being recorded per item. -/
theorem c2_store_fault_recorded_per_item :
    (processMultipleImages storeDownEnv initialState [demoFile]).1
      = { successful := [],
          failed := [{ filename := "a.jpg", error := "Vector store unreachable" }],
          totalProcessed := 0, totalFailed := 1 } := rfl

/-- C2 amended: `processMultipleImages` never raises for an individual
item's failure, and errors of every kind thrown by `processUploadedImage`
— including vector-store-unreachable and auth failures — are captured
into the batch failure list instead of propagating: when the store fails
on every call, the batch still completes normally, with no successes and
with every input file recorded in the failure list in order. -/
theorem c2_batch_never_raises (env : Env) (s : SvcState) (files : List MFile)
    (hstore : ∀ pd, ∃ m, env.storeImageEmbedding pd = Except.error m) :
    (processMultipleImages env s files).1.successful = []
    ∧ (processMultipleImages env s files).1.failed.map (fun e => e.filename)
        = files.map (fun f => f.originalname) := by
  have h := processBatchLoop_allFail env hstore files s [] []
  exact ⟨by simpa [processMultipleImages] using h.1,
         by simpa [processMultipleImages] using h.2⟩

/-- C2 amended witness: instantiated in the store-down environment on a
concrete single-file batch. -/
theorem c2_batch_never_raises_witness :
    (processMultipleImages storeDownEnv initialState [demoFile]).1.successful = []
    ∧ (processMultipleImages storeDownEnv initialState [demoFile]).1.failed.map
        (fun e => e.filename) = ["a.jpg"] := by
  have h := c2_batch_never_raises storeDownEnv initialState [demoFile]
    (fun pd => ⟨"Vector store unreachable", rfl⟩)
  simpa [demoFile] using h

/-- C3: `processUploadedImage` invokes `cleanupTemporaryFile` exactly once
on every exit path (one new entry in the cleanup-call trace whether the
result is a success or an error), and the cleanup behaviour — whether the
temporary file exists and whether the unlink succeeds — never changes the
reported result: any two environments agreeing on the processing
collaborators produce identical outcomes. -/
theorem c3_cleanup_once_never_escalated (env env2 : Env) (s : SvcState) (p n : String)
    (h1 : env2.initOutcome = env.initOutcome)
    (h2 : env2.processImage = env.processImage)
    (h3 : env2.storeImageEmbedding = env.storeImageEmbedding) :
    (processUploadedImage env s p n).2.cleanupCalls = s.cleanupCalls ++ [p]
    ∧ (processUploadedImage env2 s p n).2.cleanupCalls = s.cleanupCalls ++ [p]
    ∧ (processUploadedImage env2 s p n).1 = (processUploadedImage env s p n).1 :=
  ⟨processUploadedImage_calls env s p n,
   processUploadedImage_calls env2 s p n,
   processUploadedImage_result_ignores_cleanup env env2 s p n h1 h2 h3⟩

/-- C3 witness: instantiated with a failing-store environment against the
same environment with a failing unlink; cleanup is attempted exactly once
and the reported error is identical. -/
theorem c3_cleanup_once_never_escalated_witness :
    (processUploadedImage storeDownEnv initialState "uploads/image-1.jpg" "a.jpg").2.cleanupCalls
        = ["uploads/image-1.jpg"]
    ∧ storeDownNoUnlinkEnv.unlinkOk "uploads/image-1.jpg" = false
    ∧ (processUploadedImage storeDownNoUnlinkEnv
          initialState "uploads/image-1.jpg" "a.jpg").1
        = (processUploadedImage storeDownEnv initialState "uploads/image-1.jpg" "a.jpg").1 := by
  have h := c3_cleanup_once_never_escalated storeDownEnv storeDownNoUnlinkEnv initialState
    "uploads/image-1.jpg" "a.jpg" rfl rfl rfl
  exact ⟨by simpa [initialState] using h.1, rfl, h.2.2⟩

/-- C4: the batch computation is a left fold over the input sequence
accumulating the success and failure lists while threading the service
state, and the cleanup-call trace it leaves behind is exactly the input
files' temporary paths in input order — each file's full
process-and-clean-up sequence completes before the next file's begins. -/
theorem c4_sequential_fold (env : Env) (s : SvcState) (files : List MFile) :
    processMultipleImages env s files
      = ((fun out => ({ successful := out.1, failed := out.2.1,
                        totalProcessed := out.1.length, totalFailed := out.2.1.length },
                      out.2.2))
          (files.foldl (batchStep env) ([], [], s))
          : BatchResult × SvcState)
    ∧ (processMultipleImages env s files).2.cleanupCalls
        = s.cleanupCalls ++ files.map (fun f => f.path) := by
  constructor
  · simp [processMultipleImages, processBatchLoop_eq_foldl]
  · simp [processMultipleImages, processBatchLoop_calls]

/-- C5 counterexample: a present `image/bmp` file well inside the size
ceiling is rejected by `validateUploadedFile` (its `allowedTypes` array
has no `image/bmp` entry), even though the claim says every such file
succeeds. -/
theorem c5_bmp_rejected :
    validateUploadedFile (some { size := 100, mimetype := "image/bmp" })
      ≠ Except.ok true :=
  fun h => Except.noConfusion h

/-- C5 amended: `validateUploadedFile(file)` succeeds (returns `true`)
exactly when the file is present, its size is at most 10 MiB, and its
MIME type is in {image/jpeg, image/jpg, image/png, image/gif,
image/webp}; it throws in every other case.  `image/bmp` is accepted by
the upstream multer `fileFilter` but rejected by this validator. -/
theorem c5_validate_characterization (file : Option UploadedFile) :
    (validateUploadedFile file = Except.ok true ↔
      ∃ f, file = some f ∧ f.size ≤ maxUploadSize ∧ f.mimetype ∈ allowedMimeTypes)
    ∧ fileFilter "image/bmp" = true := by
  refine ⟨?_, by decide⟩
  cases file with
  | none => simp [validateUploadedFile]
  | some f =>
    by_cases hs : maxUploadSize < f.size
    · simp only [validateUploadedFile, hs, if_true]
      constructor
      · intro hcon; cases hcon
      · rintro ⟨f2, hf2, hsize, hmem⟩
        cases hf2
        omega
    · by_cases hm : f.mimetype ∈ allowedMimeTypes
      · simp [validateUploadedFile, hs, hm]
        omega
      · simp only [validateUploadedFile, hs, if_false, hm, not_false_iff, if_true]
        constructor
        · intro hcon; cases hcon
        · rintro ⟨f2, hf2, hsize, hmem⟩
          cases hf2
          exact absurd hmem hm

/-- C5 amended witness: a small `image/png` file is accepted. -/
theorem c5_validate_characterization_witness :
    validateUploadedFile (some { size := 1024, mimetype := "image/png" })
      = Except.ok true :=
  (c5_validate_characterization (some { size := 1024, mimetype := "image/png" })).1.mpr
    ⟨{ size := 1024, mimetype := "image/png" }, rfl, by decide, by decide⟩

/-- C6: the effective search limit produced by the `queryImages`
controller always lies in [1, 50] and defaults to 10 when the parameter
is absent; the effective score threshold always lies in [0, 1] and
defaults to 0.7 when absent — for every supplied value, including 0,
negative values, values above 50, -1 and 2. -/
theorem c6_params_clamped (limit : Option Int) (st : Option Rat) :
    1 ≤ clampLimit limit ∧ clampLimit limit ≤ 50 ∧ clampLimit none = 10
    ∧ 0 ≤ clampThreshold st ∧ clampThreshold st ≤ 1
    ∧ clampThreshold none = 7/10 := by
  refine ⟨?_, ?_, by simp [clampLimit], ?_, ?_, by
    simp only [clampThreshold]
    rw [max_eq_left (by norm_num), min_eq_left (by norm_num)]⟩
  · simp only [clampLimit]
    exact le_min (le_max_right _ _) (by norm_num)
  · simp only [clampLimit]
    exact min_le_right _ _
  · simp only [clampThreshold]
    exact le_min (le_max_right _ _) (by norm_num)
  · simp only [clampThreshold]
    exact min_le_right _ _

/-- C7: the frontend attaches suggestions exactly when the one search
call succeeded with zero results; the attached list is the fixed broad
category terms followed by the lowercased query words longer than 3
characters, deduplicated keeping first occurrences and truncated to 5,
hence duplicate-free and of length at most 5; the search result itself is
passed through unchanged, and the suggestion construction is a pure
function of the query text (no further collaborator call). -/
theorem c7_suggestions_contract (search : String → FrontQueryResponse) (q : String) :
    (searchWithSuggestions search q).1 = search q
    ∧ ((searchWithSuggestions search q).2 ≠ none ↔
        ((search q).success = true ∧ (search q).data = some { totalFound := 0 }))
    ∧ (∀ l, (searchWithSuggestions search q).2 = some l →
        l = (dedupFirst (broadTerms
              ++ (q.toLower.splitOn " ").filter (fun w => 3 < w.length))).take 5
        ∧ l.Nodup ∧ l.length ≤ 5) := by
  rcases hd : (search q).data with _ | d
  · refine ⟨by simp [searchWithSuggestions, hd], ?_, ?_⟩
    · simp [searchWithSuggestions, hd]
    · intro l hl
      simp [searchWithSuggestions, hd] at hl
  · cases d with
  | mk tf =>
    by_cases hsucc : (search q).success = true
    · by_cases htf : tf = 0
      · subst htf
        refine ⟨by simp [searchWithSuggestions, hd, hsucc], ?_, ?_⟩
        · simp [searchWithSuggestions, hd, hsucc]
        · intro l hl
          simp [searchWithSuggestions, hd, hsucc] at hl
          refine ⟨hl.symm.trans rfl, ?_, ?_⟩
          · rw [← hl]
            exact (dedupFirst_nodup _).sublist (List.take_sublist _ _)
          · rw [← hl]
            exact List.length_take_le 5 _
      · refine ⟨by simp [searchWithSuggestions, hd, hsucc, htf], ?_, ?_⟩
        · simp [searchWithSuggestions, hd, hsucc, htf]
        · intro l hl
          simp [searchWithSuggestions, hd, hsucc, htf] at hl
    · refine ⟨by simp [searchWithSuggestions, hd, hsucc], ?_, ?_⟩
      · simp [searchWithSuggestions, hd, hsucc]
      · intro l hl
        simp [searchWithSuggestions, hd, hsucc] at hl

/-- C7 witness: a successful zero-result search attaches the suggestion
list, which is duplicate-free with at most 5 entries. -/
theorem c7_suggestions_contract_witness :
    (searchWithSuggestions zeroFoundSearch "purple zebra nebula").1
      = zeroFoundSearch "purple zebra nebula"
    ∧ (["landscape", "people", "nature", "city", "sunset"] : List String).Nodup
    ∧ (["landscape", "people", "nature", "city", "sunset"] : List String).length ≤ 5 := by
  have h := c7_suggestions_contract zeroFoundSearch "purple zebra nebula"
  have h2 := h.2.2 ["landscape", "people", "nature", "city", "sunset"] rfl
  exact ⟨h.1, h2.2.1, h2.2.2⟩

/-- C8: `searchImages` returns the store's ranked list unmodified (the
result list is exactly what `searchSimilarImages` returned for the
embedding of the query), so whenever the vector store honours the
delegated contract — descending scores, no score below the threshold, at
most `limit` entries — the returned results satisfy the same three
properties. -/
theorem c8_search_results_ranked (env : Env) (s : SvcState) (q : String)
    (lim : Int) (th : Rat) (resp : SearchResponse) (s1 : SvcState)
    (hcontract : ∀ emb rs, env.searchSimilarImages emb lim th = Except.ok rs →
        List.Pairwise (fun a b => b.score ≤ a.score) rs
        ∧ (∀ r ∈ rs, th ≤ r.score) ∧ (rs.length : Int) ≤ lim)
    (hok : searchImages env s q lim th = (Except.ok resp, s1)) :
    (∃ emb, env.processSearchQuery q = Except.ok emb
        ∧ env.searchSimilarImages emb lim th = Except.ok resp.results)
    ∧ List.Pairwise (fun a b => b.score ≤ a.score) resp.results
    ∧ (∀ r ∈ resp.results, th ≤ r.score)
    ∧ (resp.results.length : Int) ≤ lim := by
  rcases hin : ensureInited env s with ⟨r0, s2⟩
  simp only [searchImages, hin] at hok
  cases r0 with
  | error m => simp at hok
  | ok u =>
    cases hq : env.processSearchQuery q with
    | error m => simp [hq] at hok
    | ok emb =>
      cases hs2 : env.searchSimilarImages emb lim th with
      | error m => simp [hq, hs2] at hok
      | ok rs =>
        simp [hq, hs2] at hok
        obtain ⟨hresp, hstate⟩ := hok
        have hres : resp.results = rs := by rw [← hresp]
        refine ⟨⟨emb, rfl, by rw [hres]; exact hs2⟩, ?_, ?_, ?_⟩
        · rw [hres]
          exact (hcontract emb rs hs2).1
        · rw [hres]
          exact (hcontract emb rs hs2).2.1
        · rw [hres]
          exact (hcontract emb rs hs2).2.2

/-- C8 witness: instantiated in the environment whose store returns two
hits with scores 0.9 and 0.8 for a limit of 10 and threshold 0.7. -/
theorem c8_search_results_ranked_witness :
    (∃ emb, searchEnv.processSearchQuery "sunset" = Except.ok emb
        ∧ searchEnv.searchSimilarImages emb 10 (7/10) = Except.ok demoResponse.results)
    ∧ List.Pairwise (fun a b => b.score ≤ a.score) demoResponse.results
    ∧ (∀ r ∈ demoResponse.results, (7/10 : Rat) ≤ r.score)
    ∧ (demoResponse.results.length : Int) ≤ 10 := by
  have hcontract : ∀ emb rs, searchEnv.searchSimilarImages emb 10 (7/10) = Except.ok rs →
      List.Pairwise (fun a b => b.score ≤ a.score) rs
      ∧ (∀ r ∈ rs, (7/10 : Rat) ≤ r.score) ∧ (rs.length : Int) ≤ 10 := by
    intro emb rs h
    injection h with h2
    subst h2
    refine ⟨?_, ?_, by norm_num [demoHits]⟩
    · simp [demoHits, List.pairwise_cons]
      norm_num
    · intro r hr
      simp [demoHits] at hr
      rcases hr with rfl | rfl <;> norm_num
  exact c8_search_results_ranked searchEnv readyState "sunset" 10 (7/10)
    demoResponse readyState hcontract rfl

/-- C9: when `processUploadedImage` succeeds on a file, the single-file
controller path wraps exactly that result in the single-file envelope,
and the batch path on the same one-file list records exactly the same
result (hence identical description, filename and timestamp) as its
unique success entry with an empty failure list; the two envelope shapes
are distinct constructors, so the caller can tell one file succeeded from
a batch of one. -/
theorem c9_single_vs_batch (env : Env) (s : SvcState) (f : MFile) (r : SuccessResult)
    (h : (processUploadedImage env s f.path f.originalname).1 = Except.ok r) :
    (uploadImages env s [f]).1 = UploadResponse.single r
    ∧ (processMultipleImages env s [f]).1.successful = [r]
    ∧ (processMultipleImages env s [f]).1.failed = []
    ∧ ∀ br : BatchResult, UploadResponse.single r ≠ UploadResponse.batch br := by
  rcases hpr : processUploadedImage env s f.path f.originalname with ⟨r1, s1⟩
  rw [hpr] at h
  have h2 : r1 = Except.ok r := h
  subst h2
  refine ⟨?_, ?_, ?_, ?_⟩
  · simp [uploadImages, hpr]
  · simp [processMultipleImages, processBatchLoop, hpr]
  · simp [processMultipleImages, processBatchLoop, hpr]
  · intro br hcon
    cases hcon

/-- C9 witness: instantiated on a concrete file in the all-success
environment. -/
theorem c9_single_vs_batch_witness :
    (uploadImages okEnv initialState [demoFile]).1 = UploadResponse.single demoSuccess
    ∧ (processMultipleImages okEnv initialState [demoFile]).1.successful = [demoSuccess] := by
  have h := c9_single_vs_batch okEnv initialState demoFile demoSuccess rfl
  exact ⟨h.1, h.2.1⟩

/-- C10: `generateSearchSuggestions` returns the same five-element list
["landscape", "people", "nature", "city", "sunset"] for every query —
the six distinct fixed terms fill the deduplicated list before any
query-derived word, and truncation to 5 discards everything after them —
so the output is independent of the query and never contains a
query-derived entry. -/
theorem c10_suggestions_query_independent (q1 q2 : String) :
    generateSearchSuggestions q1 = ["landscape", "people", "nature", "city", "sunset"]
    ∧ generateSearchSuggestions q1 = generateSearchSuggestions q2 :=
  ⟨generateSearchSuggestions_const q1,
   (generateSearchSuggestions_const q1).trans (generateSearchSuggestions_const q2).symm⟩

end GalleryApp
